import Mathlib

/-!
Verification development for the client-side authentication core of the
frontend-service-app repository.

The embedding below is a shallow model of two source files:

* `src/store/auth/authSlice.ts` — the Redux auth slice: the `AuthState`
  shape, the reducers `setAuthData`, `setRegisteredUser`, `logout`,
  `setHydrated`, and the `hydrateAuthState` thunk (including its
  AsyncStorage reads/removals).
* `src/services/apiSlice.ts` — the re-authentication wrapper
  `baseQueryWithReauth` around the RTK Query base query, with the
  single-flight refresh mutex.

JavaScript values are modelled as follows: a `string | null` field becomes
`Option String`; JS truthiness of a string (`""` and `null` are falsy) is
`strTruthy`; a JSON-typed AsyncStorage slot becomes an `Option (JsonValue α)`
(`none` = key absent, `.malformed` = `JSON.parse` throws); `Date.now()`
timestamps are `Int` milliseconds.

Concurrency model (matching §5 of the design: single-threaded cooperative
event loop): code between two `await`s runs atomically. In
`baseQueryWithReauth`, the reads of `originalAccessToken` (line 124),
`refreshToken` (line 136) and `accessTokenAfterMutex` (line 139) all happen
in the same synchronous block right after `await mutex.acquire()` resolves,
so they observe one and the same store state, modelled by the single field
`stateAtAcquire` of `DispatchEnv`. The token that was attached to the
original (failed) request was read earlier, at send time, and is modelled
separately as `tokenAttached`; the handler body never mentions it, exactly
as in the source.
-/

namespace FrontendAuth

/-- Authenticated user profile, from `src/types/index.ts` (`User`). -/
structure User where
  email : String
  id : String
  username : String
  firstName : String
  lastName : String
deriving Repr, DecidableEq

/-- Registered-but-unverified user, from `src/types/index.ts` (`RegisteredUser`). -/
structure RegisteredUser where
  id : String
  firstName : String
  lastName : String
  email : String
  username : String
deriving Repr, DecidableEq

/-- Token pair held in Redux state, from `src/types/index.ts` (`TokensPayload`). -/
structure TokensPayload where
  accessToken : String
  refreshToken : String
deriving Repr, DecidableEq

/-- Payload of the `setAuthData` action, from `src/types/index.ts`
(`AuthDataPayload`): tokens, an optional user, and an `isAuthenticated`
flag (which, as the reducer shows, is never read). -/
structure AuthDataPayload where
  tokens : TokensPayload
  user : Option User
  isAuthenticated : Bool
deriving Repr, DecidableEq

/-- Payload of the `setRegisteredUser` action, from
`src/store/auth/authSlice.ts` (`SetRegisteredUserPayload`). -/
structure SetRegisteredUserPayload where
  user : Option RegisteredUser
  isRegistered : Bool
deriving Repr, DecidableEq

/-- The auth slice state, from `src/types/index.ts` (`AuthState`). -/
structure AuthState where
  accessToken : Option String
  refreshToken : Option String
  user : Option User
  isAuthenticated : Bool
  isHydrated : Bool
  registeredUser : Option RegisteredUser
  isRegistered : Bool
deriving Repr, DecidableEq

/-- `initialState` of the auth slice (`authSlice.ts`, lines 110-118). -/
def initialState : AuthState :=
  { accessToken := none
    refreshToken := none
    user := none
    isAuthenticated := false
    isHydrated := false
    registeredUser := none
    isRegistered := false }

/-- The `setAuthData` reducer (`authSlice.ts`, lines 126-161), in-memory
part: installs the tokens, sets `user` to the payload user or `null`
(`action.payload.user || null`), forces `isAuthenticated = true`
unconditionally, and clears the registered-user state. The AsyncStorage
side effects of the same reducer are modelled by `setAuthDataStorage`. -/
def setAuthData (state : AuthState) (payload : AuthDataPayload) : AuthState :=
  { state with
    accessToken := some payload.tokens.accessToken
    refreshToken := some payload.tokens.refreshToken
    user := payload.user
    isAuthenticated := true
    registeredUser := none
    isRegistered := false }

/-- The `setRegisteredUser` reducer (`authSlice.ts`, lines 164-179):
installs the registered user and flag from the payload and forces the
authenticated fields clear. It performs no storage writes. -/
def setRegisteredUser (state : AuthState) (payload : SetRegisteredUserPayload) :
    AuthState :=
  { state with
    registeredUser := payload.user
    isRegistered := payload.isRegistered
    isAuthenticated := false
    accessToken := none
    refreshToken := none
    user := none }

/-- The `logout` reducer (`authSlice.ts`, lines 182-208), in-memory part:
clears every field except `isHydrated`. -/
def logout (state : AuthState) : AuthState :=
  { state with
    accessToken := none
    refreshToken := none
    isAuthenticated := false
    user := none
    registeredUser := none
    isRegistered := false }

/-- The `setHydrated` reducer (`authSlice.ts`, lines 211-214). -/
def setHydrated (state : AuthState) : AuthState :=
  { state with isHydrated := true }

/-- An action of the auth slice among the three state-transition operations
named by the spec's §8.4 (`setAuthData` / `setRegisteredUser` / `logout`). -/
inductive AuthAction
  | setAuthData (payload : AuthDataPayload)
  | setRegisteredUser (payload : SetRegisteredUserPayload)
  | logout
deriving Repr, DecidableEq

/-- Apply one action through the corresponding reducer. -/
def applyAction (state : AuthState) : AuthAction → AuthState
  | .setAuthData payload => setAuthData state payload
  | .setRegisteredUser payload => setRegisteredUser state payload
  | .logout => logout state

/-- Apply a sequence of actions in dispatch order. -/
def applyActions (state : AuthState) (actions : List AuthAction) : AuthState :=
  actions.foldl applyAction state

/-- The mutual-exclusion invariant of §3 of the spec: authenticated state
carries no registration residue, and the two flags are never both true. -/
def ExclusiveInv (state : AuthState) : Prop :=
  (state.isAuthenticated = true →
    state.registeredUser = none ∧ state.isRegistered = false) ∧
  (state.isRegistered = true → state.isAuthenticated = false)

instance (state : AuthState) : Decidable (ExclusiveInv state) := by
  unfold ExclusiveInv; infer_instance

lemma exclusiveInv_initial : ExclusiveInv initialState := by decide

lemma exclusiveInv_applyAction (state : AuthState) (action : AuthAction) :
    ExclusiveInv (applyAction state action) := by
  cases action with
  | setAuthData payload =>
      exact ⟨fun _ => ⟨rfl, rfl⟩, fun h => by simp [applyAction, setAuthData] at h⟩
  | setRegisteredUser payload =>
      exact ⟨fun h => by simp [applyAction, setRegisteredUser] at h, fun _ => rfl⟩
  | logout =>
      exact ⟨fun h => by simp [applyAction, logout] at h,
             fun h => by simp [applyAction, logout] at h⟩

lemma exclusiveInv_applyActions (state : AuthState) (actions : List AuthAction) :
    ExclusiveInv state → ExclusiveInv (applyActions state actions) := by
  induction actions generalizing state with
  | nil => exact fun h => h
  | cons action rest ih =>
      intro _
      exact ih (applyAction state action) (exclusiveInv_applyAction state action)

/-- Result of attempting `JSON.parse` on a stored string: either the parsed
value, or the exception branch. -/
inductive JsonValue (α : Type)
  | ok (value : α)
  | malformed
deriving Repr, DecidableEq

/-- The parsed shape of the `registeredUserData` storage record,
`{data: RegisteredUser, timestamp: number}` (a missing/falsy `data` or
`timestamp` sends `hydrateAuthState` to its corrupted-record branch;
`timestamp = 0` is the falsy number). -/
structure RegisteredRecord where
  data : Option RegisteredUser
  timestamp : Int
deriving Repr, DecidableEq

/-- The AsyncStorage keys the auth code uses (`accessToken`, `refreshToken`,
`user`, `registeredUserData`); `none` means the key is absent. The stored
`user` JSON may legitimately parse to `null` (the reducer stringifies
`payload.user`), hence the inner `Option User`. -/
structure Storage where
  accessToken : Option String
  refreshToken : Option String
  user : Option (JsonValue (Option User))
  registeredUserData : Option (JsonValue RegisteredRecord)
deriving Repr, DecidableEq

/-- JS truthiness of a nullable string: `null` and `""` are falsy. -/
def strTruthy : Option String → Bool
  | some s => !s.isEmpty
  | none => false

/-- Storage side effects of the `setAuthData` reducer (`authSlice.ts`,
lines 145-159): write both tokens and the stringified user, and remove
`registeredUserData`. -/
def setAuthDataStorage (st : Storage) (payload : AuthDataPayload) : Storage :=
  { st with
    accessToken := some payload.tokens.accessToken
    refreshToken := some payload.tokens.refreshToken
    user := some (JsonValue.ok payload.user)
    registeredUserData := none }

/-- Storage side effects of the `logout` reducer (`authSlice.ts`,
lines 194-206): remove all four keys. -/
def logoutStorage (_st : Storage) : Storage :=
  { accessToken := none, refreshToken := none, user := none,
    registeredUserData := none }

/-- `REGISTERED_DATA_EXPIRATION_MS` (`authSlice.ts`, line 8): 7 days in
milliseconds. -/
def REGISTERED_DATA_EXPIRATION_MS : Int := 1000 * 60 * 60 * 24 * 7

/-- The body of the `hydrateAuthState` thunk (`authSlice.ts`, lines 11-100)
before its `finally` block, as a transformer of (store auth state, storage).
`now` is `Date.now()` at the expiry check.

Branch structure mirrors the source's single `if / else if / else` chain:

* Case 1 (all of `accessToken`, `refreshToken`, `user` truthy in storage):
  parse the user; on success dispatch `setAuthData` (whose reducer also
  writes storage) and remove `registeredUserData`; on parse failure
  `multiRemove` the three authenticated keys. The parse-failure branch
  ends the chain — control does not re-enter the `else if` arms.
* Case 2 (otherwise, `registeredUserData` present): parse it; on parse
  failure or a falsy `data`/`timestamp`, remove the record; else if
  `now - timestamp > REGISTERED_DATA_EXPIRATION_MS`, remove the record;
  else dispatch `setRegisteredUser` with the stored data.
* Case 3 (otherwise): defensively remove `registeredUserData`. -/
def hydrateCore (now : Int) (s : AuthState) (st : Storage) :
    AuthState × Storage :=
  if strTruthy st.accessToken && strTruthy st.refreshToken && st.user.isSome then
    match st.user with
    | some (JsonValue.ok storedUser) =>
        let payload : AuthDataPayload :=
          { tokens := { accessToken := st.accessToken.getD ""
                        refreshToken := st.refreshToken.getD "" }
            user := storedUser
            isAuthenticated := true }
        let s1 := setAuthData s payload
        let st1 := setAuthDataStorage st payload
        (s1, { st1 with registeredUserData := none })
    | _ =>
        (s, { st with accessToken := none, refreshToken := none, user := none })
  else if st.registeredUserData.isSome then
    match st.registeredUserData with
    | some (JsonValue.ok storedRegisteredObject) =>
        if storedRegisteredObject.data.isSome
            && storedRegisteredObject.timestamp != 0 then
          if !(now - storedRegisteredObject.timestamp
                > REGISTERED_DATA_EXPIRATION_MS) then
            (setRegisteredUser s
              { user := storedRegisteredObject.data, isRegistered := true }, st)
          else
            (s, { st with registeredUserData := none })
        else
          (s, { st with registeredUserData := none })
    | _ =>
        (s, { st with registeredUserData := none })
  else
    (s, { st with registeredUserData := none })

/-- `hydrateAuthState` with its `finally` block: whatever branch ran,
dispatch `setHydrated` last. -/
def hydrateAuthState (now : Int) (s : AuthState) (st : Storage) :
    AuthState × Storage :=
  let p := hydrateCore now s st
  (setHydrated p.1, p.2)

/-- An RTK Query transport error (`FetchBaseQueryError`): `result.error.status`
is either a numeric HTTP status or one of the string tags; a
`PARSING_ERROR` additionally wraps the `originalStatus` of the HTTP
response whose body failed to decode. -/
inductive QueryError
  | http (status : Nat)
  | parsingError (originalStatus : Nat)
  | fetchError
  | timeoutError
  | customError
deriving Repr, DecidableEq

/-- Which result object `baseQueryWithReauth` hands back to its caller: the
first attempt's result, the result of a retried original request, or the
refresh call's result (the source only ever reassigns its `result`
variable to one of these three whole objects). -/
inductive DispatchResult
  | fromFirst
  | fromRetry
  | fromRefresh
deriving Repr, DecidableEq

/-- Parsed body of a `/refresh-token` response (`refreshResult.data` cast in
`apiSlice.ts`, lines 220-223): each field is `some` exactly when the JSON
key is present (the `"accessToken" in refreshResponseData` tests). -/
structure RefreshBody where
  accessToken : Option String
  refreshToken : Option String
  access_token : Option String
  refresh_token : Option String
  user : Option User
deriving Repr, DecidableEq

/-- Observable pieces of the `/refresh-token` call's result that
`baseQueryWithReauth` inspects: `refreshResult.data` and
`refreshResult.meta?.response?.status`. -/
structure RefreshResult where
  data : Option RefreshBody
  status : Option Nat
deriving Repr, DecidableEq

/-- Environment of one `baseQueryWithReauth` invocation: the per-request
option, the first attempt's error (if any), the bearer token
`prepareHeaders` attached at send time, the auth state observed in the
synchronous block after `mutex.acquire()` resolves, and the network answer
the `/refresh-token` call would get if issued. -/
structure DispatchEnv where
  requiresAuth : Bool
  firstError : Option QueryError
  tokenAttached : Option String
  stateAtAcquire : AuthState
  refreshResult : RefreshResult
deriving Repr, DecidableEq

/-- Outcome of one `baseQueryWithReauth` invocation: which result object is
returned, whether a `POST /refresh-token` was issued, whether the original
request was re-sent, and the auth state after the dispatched actions. -/
structure DispatchOutcome where
  result : DispatchResult
  refreshCalled : Bool
  retriedOriginal : Bool
  state : AuthState
deriving Repr, DecidableEq

/-- The `isUnauthorized` classification (`apiSlice.ts`, lines 95-104):
an error is unauthorized when `error.status === 401`, or
`error.status === "PARSING_ERROR"` and `error.originalStatus === 401`. -/
def isUnauthorized (firstError : Option QueryError) : Bool :=
  match firstError with
  | none => false
  | some e =>
      (match e with | .http status => status == 401 | _ => false)
      || (match e with
          | .parsingError originalStatus => originalStatus == 401
          | _ => false)

/-- Token extraction from a refresh response body (`apiSlice.ts`,
lines 229-259): try the top-level camelCase keys first (user data is not
read in that branch), then the top-level snake_case keys (capturing the
optional `user`); returns `(newAccessToken, newRefreshToken, newUserData)`.
-/
def extractTokens (body : RefreshBody) :
    Option String × Option String × Option User :=
  if body.accessToken.isSome && body.refreshToken.isSome then
    (body.accessToken, body.refreshToken, none)
  else if body.access_token.isSome && body.refresh_token.isSome then
    (body.access_token, body.refresh_token, body.user)
  else
    (none, none, none)

/-- Path 3 of the 401 handler (`apiSlice.ts`, lines 178-317): issue the
refresh call; on `data` present with status 200 and both extracted tokens
truthy, dispatch `setAuthData` (new tokens; refresh-supplied user if any,
else the user currently in state) and retry the original request; on any
failure shape, dispatch `logout` and return the refresh result. -/
def handleRefresh (env : DispatchEnv) : DispatchOutcome :=
  match env.refreshResult.data, env.refreshResult.status with
  | some body, some 200 =>
      let extracted := extractTokens body
      let newAccessToken := extracted.1
      let newRefreshToken := extracted.2.1
      let newUserData := extracted.2.2
      if strTruthy newAccessToken && strTruthy newRefreshToken then
        let currentUserDataAtRefresh := env.stateAtAcquire.user
        let s1 := setAuthData env.stateAtAcquire
          { tokens := { accessToken := newAccessToken.getD ""
                        refreshToken := newRefreshToken.getD "" }
            user := newUserData.orElse (fun _ => currentUserDataAtRefresh)
            isAuthenticated := true }
        { result := .fromRetry, refreshCalled := true,
          retriedOriginal := true, state := s1 }
      else
        { result := .fromRefresh, refreshCalled := true,
          retriedOriginal := false, state := logout env.stateAtAcquire }
  | _, _ =>
      { result := .fromRefresh, refreshCalled := true,
        retriedOriginal := false, state := logout env.stateAtAcquire }

/-- `baseQueryWithReauth` (`apiSlice.ts`, lines 60-326). The
`requiresAuth === false` path skips all refresh logic. Otherwise, when the
first attempt is classified unauthorized, the handler acquires the mutex
and runs its synchronous block: `originalAccessToken` (line 124),
`refreshToken` (line 136) and `accessTokenAfterMutex` (line 139) are all
read from the store after `mutex.acquire()` resolved, with no suspension
point in between, so all three come from `stateAtAcquire`. Path 1 fires
when `accessTokenAfterMutex` is truthy and differs from
`originalAccessToken`; Path 2 when `refreshToken` is falsy; Path 3
performs the refresh. -/
def baseQueryWithReauth (env : DispatchEnv) : DispatchOutcome :=
  if env.requiresAuth == false then
    { result := .fromFirst, refreshCalled := false,
      retriedOriginal := false, state := env.stateAtAcquire }
  else if isUnauthorized env.firstError then
    let originalAccessToken := env.stateAtAcquire.accessToken
    let refreshTokenInState := env.stateAtAcquire.refreshToken
    let accessTokenAfterMutex := env.stateAtAcquire.accessToken
    if strTruthy accessTokenAfterMutex
        && accessTokenAfterMutex != originalAccessToken then
      { result := .fromRetry, refreshCalled := false,
        retriedOriginal := true, state := env.stateAtAcquire }
    else if !(strTruthy refreshTokenInState) then
      { result := .fromFirst, refreshCalled := false,
        retriedOriginal := false, state := logout env.stateAtAcquire }
    else
      handleRefresh env
  else
    { result := .fromFirst, refreshCalled := false,
      retriedOriginal := false, state := env.stateAtAcquire }

/-- Per-dispatch data for a batch of authenticated dispatches that have all
already received their first-attempt result and are queued on the refresh
mutex: the first attempt's error, the token that was attached to it, and
the answer the server would give to a `/refresh-token` call from this
dispatch. -/
structure QueuedDispatch where
  firstError : Option QueryError
  tokenAttached : Option String
  refreshResult : RefreshResult
deriving Repr, DecidableEq

/-- Serialized execution of queued dispatch handlers: since the mutex admits
one handler at a time and every state-changing dispatch of a handler
happens inside its critical section, each handler observes the auth state
produced by its predecessors. Returns the final shared auth state and the
total number of `/refresh-token` calls issued. -/
def runQueued (s : AuthState) : List QueuedDispatch → AuthState × Nat
  | [] => (s, 0)
  | d :: rest =>
      let out := baseQueryWithReauth
        { requiresAuth := true, firstError := d.firstError,
          tokenAttached := d.tokenAttached, stateAtAcquire := s,
          refreshResult := d.refreshResult }
      let tail := runQueued out.state rest
      (tail.1, (if out.refreshCalled then 1 else 0) + tail.2)

/-- Sample authenticated user for concrete instances. -/
def sampleUser : User :=
  { email := "alice@example.com", id := "u1", username := "alice",
    firstName := "Alice", lastName := "Lidell" }

/-- Sample registered-but-unverified user for concrete instances. -/
def sampleRegisteredUser : RegisteredUser :=
  { id := "u2", firstName := "Bob", lastName := "Martin",
    email := "bob@example.com", username := "bob" }

/-- An authenticated snapshot holding the stale token pair `T0`/`R0`. -/
def staleAuthState : AuthState :=
  { accessToken := some "T0", refreshToken := some "R0",
    user := some sampleUser, isAuthenticated := true, isHydrated := true,
    registeredUser := none, isRegistered := false }

/-- Claim C5: starting from the initial auth state, after any sequence of
`setAuthData`, `setRegisteredUser` and `logout` operations, the state
satisfies: `isAuthenticated = true` implies `registeredUser = null` and
`isRegistered = false`, and `isRegistered = true` implies
`isAuthenticated = false`. -/
theorem c5_state_exclusivity (actions : List AuthAction) :
    ((applyActions initialState actions).isAuthenticated = true →
      (applyActions initialState actions).registeredUser = none ∧
      (applyActions initialState actions).isRegistered = false) ∧
    ((applyActions initialState actions).isRegistered = true →
      (applyActions initialState actions).isAuthenticated = false) :=
  exclusiveInv_applyActions initialState actions exclusiveInv_initial

/-- Action sequence that establishes registration and then authenticates. -/
def c5SampleActions : List AuthAction :=
  [ .setRegisteredUser { user := some sampleRegisteredUser, isRegistered := true },
    .setAuthData { tokens := { accessToken := "A1", refreshToken := "R1" },
                   user := some sampleUser, isAuthenticated := true } ]

/-- Witness for C5 at a concrete action sequence ending authenticated. -/
theorem c5_state_exclusivity_witness :
    (applyActions initialState c5SampleActions).isAuthenticated = true ∧
    (applyActions initialState c5SampleActions).registeredUser = none ∧
    (applyActions initialState c5SampleActions).isRegistered = false :=
  ⟨by decide, (c5_state_exclusivity c5SampleActions).1 (by decide)⟩

/-- Claim C10: every `setAuthData` dispatch yields `isAuthenticated = true`
regardless of the payload's `isAuthenticated` field, and yields a null
`user` whenever the payload supplies no user. -/
theorem c10_setAuthData_ignores_flag (s : AuthState) (tokens : TokensPayload)
    (u : Option User) (flag : Bool) :
    (setAuthData s { tokens := tokens, user := u, isAuthenticated := flag
                   }).isAuthenticated = true ∧
    (u = none →
      (setAuthData s { tokens := tokens, user := u, isAuthenticated := flag
                     }).user = none) :=
  ⟨rfl, fun h => by simp [setAuthData, h]⟩

/-- Witness for C10: a payload carrying `isAuthenticated = false` and no
user still produces an authenticated state with a null user. -/
theorem c10_setAuthData_ignores_flag_witness :
    (setAuthData initialState
      { tokens := { accessToken := "A1", refreshToken := "R1" },
        user := none, isAuthenticated := false }).isAuthenticated = true ∧
    (setAuthData initialState
      { tokens := { accessToken := "A1", refreshToken := "R1" },
        user := none, isAuthenticated := false }).user = none :=
  ⟨(c10_setAuthData_ignores_flag initialState
      { accessToken := "A1", refreshToken := "R1" } none false).1,
   (c10_setAuthData_ignores_flag initialState
      { accessToken := "A1", refreshToken := "R1" } none false).2 rfl⟩

/-- Claim C8: a first-attempt result is classified unauthorized exactly when
its error status is 401 or it is a parsing error wrapping original HTTP
status 401; every other error, and every success, is returned to the
caller as-is, with no refresh call and no state change. -/
theorem c8_unauthorized_classification :
    (∀ e : Option QueryError,
        isUnauthorized e = true ↔
          e = some (QueryError.http 401) ∨
          e = some (QueryError.parsingError 401)) ∧
    (∀ env : DispatchEnv, env.requiresAuth = true →
        isUnauthorized env.firstError = false →
        baseQueryWithReauth env =
          { result := .fromFirst, refreshCalled := false,
            retriedOriginal := false, state := env.stateAtAcquire }) := by
  constructor
  · intro e
    cases e with
    | none => simp [isUnauthorized]
    | some err =>
        cases err <;> simp [isUnauthorized, Nat.beq_eq_true_eq]
  · intro env hAuth hNot
    simp [baseQueryWithReauth, hAuth, hNot]

/-- Environment whose first attempt fails with a plain 500. -/
def serverErrorEnv : DispatchEnv :=
  { requiresAuth := true, firstError := some (QueryError.http 500),
    tokenAttached := some "T0", stateAtAcquire := staleAuthState,
    refreshResult := { data := none, status := none } }

/-- Witness for C8: a parsing error wrapping 401 is classified unauthorized,
and a 500 passes through untouched with no refresh. -/
theorem c8_unauthorized_classification_witness :
    isUnauthorized (some (QueryError.parsingError 401)) = true ∧
    baseQueryWithReauth serverErrorEnv =
      { result := .fromFirst, refreshCalled := false,
        retriedOriginal := false, state := serverErrorEnv.stateAtAcquire } :=
  ⟨(c8_unauthorized_classification.1
      (some (QueryError.parsingError 401))).mpr (Or.inr rfl),
   c8_unauthorized_classification.2 serverErrorEnv rfl (by decide)⟩

/-- Helper: under `requiresAuth` with an unauthorized first result and a
truthy refresh token in state, `baseQueryWithReauth` reaches Path 3 (the
refresh call). Path 1 cannot fire because both compared tokens are read
from the same post-acquire state. -/
lemma baseQueryWithReauth_path3 (env : DispatchEnv)
    (hAuth : env.requiresAuth = true)
    (hUnauth : isUnauthorized env.firstError = true)
    (hRT : strTruthy env.stateAtAcquire.refreshToken = true) :
    baseQueryWithReauth env = handleRefresh env := by
  simp [baseQueryWithReauth, hAuth, hUnauth, hRT]

/-- The failure test the source applies to a refresh result: no data, or
status other than 200, or a 200 body from which no truthy token pair is
extracted by either accepted shape. -/
def refreshFailed (rr : RefreshResult) : Bool :=
  match rr.data, rr.status with
  | some body, some 200 =>
      let extracted := extractTokens body
      !(strTruthy extracted.1 && strTruthy extracted.2.1)
  | _, _ => true

/-- Claim C3: an authenticated dispatch that comes back unauthorized while
no refresh token is in state dispatches `logout` (so `isAuthenticated`
becomes false), issues no refresh call, and returns the original
unauthorized result unmodified. -/
theorem c3_no_refresh_token_logs_out (env : DispatchEnv)
    (hAuth : env.requiresAuth = true)
    (hUnauth : isUnauthorized env.firstError = true)
    (hNoRT : env.stateAtAcquire.refreshToken = none) :
    baseQueryWithReauth env =
      { result := .fromFirst, refreshCalled := false,
        retriedOriginal := false, state := logout env.stateAtAcquire } ∧
    (baseQueryWithReauth env).state.isAuthenticated = false := by
  have h : baseQueryWithReauth env =
      { result := .fromFirst, refreshCalled := false,
        retriedOriginal := false, state := logout env.stateAtAcquire } := by
    simp [baseQueryWithReauth, hAuth, hUnauth, hNoRT, strTruthy]
  exact ⟨h, by rw [h]; rfl⟩

/-- Environment for C3's witness: a 401 while state has no refresh token. -/
def envNoRefreshToken : DispatchEnv :=
  { requiresAuth := true, firstError := some (QueryError.http 401),
    tokenAttached := some "T0",
    stateAtAcquire := { staleAuthState with refreshToken := none },
    refreshResult := { data := none, status := none } }

/-- Witness for C3 at `envNoRefreshToken`. -/
theorem c3_no_refresh_token_logs_out_witness :
    baseQueryWithReauth envNoRefreshToken =
      { result := .fromFirst, refreshCalled := false,
        retriedOriginal := false,
        state := logout envNoRefreshToken.stateAtAcquire } ∧
    (baseQueryWithReauth envNoRefreshToken).state.isAuthenticated = false :=
  c3_no_refresh_token_logs_out envNoRefreshToken rfl (by decide) rfl

/-- Claim C4: when the refresh attempt fails (no data, non-200 status, or a
200 body with no token pair extractable by either accepted shape), the
dispatcher dispatches `logout` and returns the refresh call's result, not
the original request's 401 result. -/
theorem c4_refresh_failure_logs_out (env : DispatchEnv)
    (hAuth : env.requiresAuth = true)
    (hUnauth : isUnauthorized env.firstError = true)
    (hRT : strTruthy env.stateAtAcquire.refreshToken = true)
    (hFail : refreshFailed env.refreshResult = true) :
    baseQueryWithReauth env =
      { result := .fromRefresh, refreshCalled := true,
        retriedOriginal := false, state := logout env.stateAtAcquire } := by
  rw [baseQueryWithReauth_path3 env hAuth hUnauth hRT]
  unfold handleRefresh
  unfold refreshFailed at hFail
  split
  · next body heqd heqs =>
      rw [heqd, heqs] at hFail
      simp at hFail
      rcases hFail with h1 | h1 <;> simp [h1]
  · rfl

/-- Environment for C4's witness: the refresh endpoint answers 500. -/
def envRefreshServerError : DispatchEnv :=
  { requiresAuth := true, firstError := some (QueryError.http 401),
    tokenAttached := some "T0", stateAtAcquire := staleAuthState,
    refreshResult := { data := none, status := some 500 } }

/-- Witness for C4 at `envRefreshServerError`. -/
theorem c4_refresh_failure_logs_out_witness :
    baseQueryWithReauth envRefreshServerError =
      { result := .fromRefresh, refreshCalled := true,
        retriedOriginal := false,
        state := logout envRefreshServerError.stateAtAcquire } :=
  c4_refresh_failure_logs_out envRefreshServerError rfl (by decide)
    (by decide) (by decide)

/-- Claim C7: on a successful refresh (status 200, data present, a truthy
token pair extracted), the authenticated state's `user` equals the user
supplied by the refresh response when one was captured (which can happen
only in the snake_case shape), and otherwise equals the user in state,
unchanged. -/
theorem c7_refresh_preserves_user (env : DispatchEnv) (body : RefreshBody)
    (hAuth : env.requiresAuth = true)
    (hUnauth : isUnauthorized env.firstError = true)
    (hRT : strTruthy env.stateAtAcquire.refreshToken = true)
    (hData : env.refreshResult.data = some body)
    (hStatus : env.refreshResult.status = some 200)
    (hTok : strTruthy (extractTokens body).1 = true)
    (hTok2 : strTruthy (extractTokens body).2.1 = true) :
    ((extractTokens body).2.2 = none →
      (baseQueryWithReauth env).state.user = env.stateAtAcquire.user) ∧
    (∀ u : User, (extractTokens body).2.2 = some u →
      (baseQueryWithReauth env).state.user = some u) ∧
    (body.accessToken.isSome = true → body.refreshToken.isSome = true →
      (extractTokens body).2.2 = none) := by
  have hmain : (baseQueryWithReauth env).state.user =
      ((extractTokens body).2.2).orElse (fun _ => env.stateAtAcquire.user) := by
    rw [baseQueryWithReauth_path3 env hAuth hUnauth hRT]
    unfold handleRefresh
    rw [hData, hStatus]
    simp [hTok, hTok2, setAuthData]
  refine ⟨fun h => by rw [hmain, h]; rfl,
          fun u h => by rw [hmain, h]; rfl,
          fun hA hR => ?_⟩
  simp [extractTokens, hA, hR]

/-- The sample registered user promoted to an authenticated `User` shape,
used as the refresh response's updated user data. -/
def sampleRegisteredUserAsUser : User :=
  { email := "bob@example.com", id := "u2", username := "bob",
    firstName := "Bob", lastName := "Martin" }

/-- Environment for C7's witness: the refresh endpoint answers with the
snake_case shape carrying updated user data. -/
def envRefreshWithUser : DispatchEnv :=
  { requiresAuth := true, firstError := some (QueryError.http 401),
    tokenAttached := some "T0", stateAtAcquire := staleAuthState,
    refreshResult :=
      { data := some { accessToken := none, refreshToken := none,
                       access_token := some "T1", refresh_token := some "R1",
                       user := some sampleRegisteredUserAsUser }
        status := some 200 } }

/-- Witness for C7 at `envRefreshWithUser`: the snake_case response's user
is installed. -/
theorem c7_refresh_preserves_user_witness :
    (baseQueryWithReauth envRefreshWithUser).state.user =
      some sampleRegisteredUserAsUser :=
  (c7_refresh_preserves_user envRefreshWithUser
      { accessToken := none, refreshToken := none,
        access_token := some "T1", refresh_token := some "R1",
        user := some sampleRegisteredUserAsUser }
      rfl (by decide) (by decide) rfl rfl (by decide) (by decide)).2.1
    sampleRegisteredUserAsUser rfl

/-- Helper: every exit of the refresh path (Path 3) has issued the refresh
call. -/
lemma handleRefresh_refreshCalled (env : DispatchEnv) :
    (handleRefresh env).refreshCalled = true := by
  unfold handleRefresh
  split
  · next body _ _ =>
      by_cases hc : (strTruthy (extractTokens body).1
          && strTruthy (extractTokens body).2.1) = true
      · simp [hc]
      · simp [hc]
  · rfl

/-- Helper: in no execution of `baseQueryWithReauth` is the original request
retried without a refresh call having been issued. This is the
changed-token retry path (Path 1) of the source, whose guard compares two
reads of the same post-acquire state and therefore never holds. -/
lemma retry_without_refresh_impossible (env : DispatchEnv) :
    ¬((baseQueryWithReauth env).refreshCalled = false ∧
      (baseQueryWithReauth env).retriedOriginal = true) := by
  intro hcontra
  unfold baseQueryWithReauth at hcontra
  simp only [bne_self_eq_false, Bool.and_false] at hcontra
  split_ifs at hcontra with h1 h2 h3 h4
  · exact absurd hcontra.2 (by simp)
  · exact h3
  · exact absurd hcontra.2 (by simp)
  · rw [handleRefresh_refreshCalled env] at hcontra
    exact absurd hcontra.1 (by simp)
  · exact absurd hcontra.2 (by simp)

/-- Environment reproducing the stale-retry scenario of claim C1: the failed
first attempt carried the stale token `T0`, and by the time this dispatch
acquires the mutex a concurrent caller's completed refresh has installed
`T1`/`R1` in state. -/
def envTokenChangedWhileQueued : DispatchEnv :=
  { requiresAuth := true, firstError := some (QueryError.http 401),
    tokenAttached := some "T0",
    stateAtAcquire :=
      { accessToken := some "T1", refreshToken := some "R1",
        user := some sampleUser, isAuthenticated := true, isHydrated := true,
        registeredUser := none, isRegistered := false },
    refreshResult :=
      { data := some { accessToken := some "T2", refreshToken := some "R2",
                       access_token := none, refresh_token := none,
                       user := none }
        status := some 200 } }

/-- Claim C1 evaluated on the code: although the token now in state (`T1`)
differs from the token attached to the failed first attempt (`T0`), the
dispatcher still issues a `/refresh-token` call. The source reads
`originalAccessToken` from the store after acquiring the mutex, in the
same synchronous block as `accessTokenAfterMutex`, so the comparison that
should detect the change is between two equal values and the
retry-without-refresh path can never fire. -/
theorem c1_second_refresh_despite_changed_token :
    envTokenChangedWhileQueued.tokenAttached ≠
      envTokenChangedWhileQueued.stateAtAcquire.accessToken ∧
    (baseQueryWithReauth envTokenChangedWhileQueued).refreshCalled = true := by
  decide

/-- First queued dispatch of the C2 scenario: 401 on the stale token `T0`;
its refresh call would be answered with the pair `T1`/`R1`. -/
def queuedDispatchA : QueuedDispatch :=
  { firstError := some (QueryError.http 401), tokenAttached := some "T0",
    refreshResult :=
      { data := some { accessToken := some "T1", refreshToken := some "R1",
                       access_token := none, refresh_token := none,
                       user := none }
        status := some 200 } }

/-- Second queued dispatch of the C2 scenario: also 401 on `T0`; its own
refresh call would be answered with `T2`/`R2`. -/
def queuedDispatchB : QueuedDispatch :=
  { firstError := some (QueryError.http 401), tokenAttached := some "T0",
    refreshResult :=
      { data := some { accessToken := some "T2", refreshToken := some "R2",
                       access_token := none, refresh_token := none,
                       user := none }
        status := some 200 } }

/-- Claim C2 evaluated on the code: two concurrent dispatches that both
received 401 with the same stale token produce TWO `/refresh-token` calls
once serialized through the mutex — the second handler runs against the
already-refreshed state (token `T1`) but compares that state's token with
itself, so instead of retrying directly it refreshes again, installing
`T2`. -/
theorem c2_two_queued_dispatches_two_refresh_calls :
    (runQueued staleAuthState [queuedDispatchA, queuedDispatchB]).2 = 2 ∧
    (runQueued staleAuthState [queuedDispatchA, queuedDispatchB]
      ).1.accessToken = some "T2" := by
  decide

/-- Storage snapshot for claim C6: a complete authenticated record whose
user JSON is corrupted, alongside a valid registered record written at
time 1000. -/
def corruptUserStorage : Storage :=
  { accessToken := some "A1", refreshToken := some "R1",
    user := some JsonValue.malformed,
    registeredUserData :=
      some (JsonValue.ok { data := some sampleRegisteredUser,
                           timestamp := 1000 }) }

/-- Claim C6 evaluated on the code: hydrating `corruptUserStorage` at time
2000 (far inside the TTL) deletes the three authenticated keys, but the
run ends there — because the registered-data check is the `else if` of
the same chain, the valid registered record is neither hydrated
(`isRegistered` stays false) nor even read (it remains in storage). -/
theorem c6_corrupt_user_no_fallthrough :
    (hydrateAuthState 2000 initialState corruptUserStorage).2.accessToken
        = none ∧
    (hydrateAuthState 2000 initialState corruptUserStorage).2.refreshToken
        = none ∧
    (hydrateAuthState 2000 initialState corruptUserStorage).2.user = none ∧
    (hydrateAuthState 2000 initialState corruptUserStorage).1.isRegistered
        = false ∧
    (hydrateAuthState 2000 initialState corruptUserStorage).1.registeredUser
        = none ∧
    (hydrateAuthState 2000 initialState corruptUserStorage
      ).2.registeredUserData = corruptUserStorage.registeredUserData := by
  decide

/-- Claim C9: hydration with no authenticated record and a parseable
registered record prunes the record and leaves `isRegistered = false`
(with no other state change) when `now - timestamp` strictly exceeds the
7-day TTL, and installs the stored user data with `isRegistered = true`
when `now - timestamp` is at most the TTL. -/
theorem c9_registered_record_expiry (now ts : Int) (ru : RegisteredUser)
    (st : Storage)
    (hNoAuth : (strTruthy st.accessToken && strTruthy st.refreshToken
                && st.user.isSome) = false)
    (hRecord : st.registeredUserData =
      some (JsonValue.ok { data := some ru, timestamp := ts }))
    (hTs : ts ≠ 0) :
    (now - ts > REGISTERED_DATA_EXPIRATION_MS →
      (hydrateAuthState now initialState st).1 = setHydrated initialState ∧
      (hydrateAuthState now initialState st).1.isRegistered = false ∧
      (hydrateAuthState now initialState st).2.registeredUserData = none) ∧
    (now - ts ≤ REGISTERED_DATA_EXPIRATION_MS →
      (hydrateAuthState now initialState st).1.isRegistered = true ∧
      (hydrateAuthState now initialState st).1.registeredUser = some ru) := by
  constructor
  · intro hExp
    simp [hydrateAuthState, hydrateCore, hNoAuth, hRecord, hTs, hExp,
      setHydrated, initialState]
  · intro hNotExp
    have hx : ¬(now - ts > REGISTERED_DATA_EXPIRATION_MS) := not_lt.mpr hNotExp
    simp [hydrateAuthState, hydrateCore, hNoAuth, hRecord, hTs, hx,
      setRegisteredUser, setHydrated]

/-- Storage with no authenticated record and a registered record written at
time 1 (in milliseconds). -/
def registeredOnlyStorage : Storage :=
  { accessToken := none, refreshToken := none, user := none,
    registeredUserData :=
      some (JsonValue.ok { data := some sampleRegisteredUser,
                           timestamp := 1 }) }

/-- Witness for C9: with the record written at time 1, hydrating at
`TTL + 2` (elapsed `TTL + 1`) prunes it, while hydrating at `TTL`
(elapsed `TTL - 1`) installs the stored user data intact. -/
theorem c9_registered_record_expiry_witness :
    ((hydrateAuthState 604800002 initialState registeredOnlyStorage
        ).1.isRegistered = false ∧
      (hydrateAuthState 604800002 initialState registeredOnlyStorage
        ).2.registeredUserData = none) ∧
    ((hydrateAuthState 604800000 initialState registeredOnlyStorage
        ).1.isRegistered = true ∧
      (hydrateAuthState 604800000 initialState registeredOnlyStorage
        ).1.registeredUser = some sampleRegisteredUser) :=
  ⟨⟨((c9_registered_record_expiry 604800002 1 sampleRegisteredUser
        registeredOnlyStorage (by decide) rfl (by decide)).1
      (by decide)).2.1,
    ((c9_registered_record_expiry 604800002 1 sampleRegisteredUser
        registeredOnlyStorage (by decide) rfl (by decide)).1
      (by decide)).2.2⟩,
   (c9_registered_record_expiry 604800000 1 sampleRegisteredUser
      registeredOnlyStorage (by decide) rfl (by decide)).2 (by decide)⟩

end FrontendAuth
